import Mathlib

/-!
Verification development for the `ios-simloc` repository (src/ios-location.js).

The script orchestrates the external `pymobiledevice3` tool: it parses CLI
options (optionally completed from a JSON config file), optionally spawns a
tunnel daemon and polls a TCP port until it is ready, then either injects a
simulated location or resets it by trying a fixed list of candidate
subcommands, and finally terminates the tunnel process.

This file gives a shallow embedding of that orchestration logic.  External
effects (the filesystem, spawned subprocesses, socket attempts) are modelled
as explicit parameters: an `FS` record of pure functions for the filesystem,
a `SpawnOutcome` per subprocess invocation, and a duration sequence for the
socket attempts of the readiness poller.  Paths are treated as opaque
strings (path resolution is modelled as identity / string concatenation),
and the numeric coercion `Number(...)` applied to the port is not
interpreted: we track the token handed to it (`portTok`), since no verified
property depends on the numeric value of the port.
-/

namespace IosSimloc

/-- Source: `const DEFAULT_HOST = "127.0.0.1"` (ios-location.js line 29). -/
def DEFAULT_HOST : String := "127.0.0.1"

/-- Source: `const DEFAULT_PORT = 49151` (ios-location.js line 30). -/
def DEFAULT_PORT : Nat := 49151

/-- Token form of the default port, as handed to `Number(...)`. -/
def defaultPortTok : String := toString DEFAULT_PORT

/-- The options record built by `parseArgs` (ios-location.js lines 35-44).
`lat`/`lon`/`config` are `Option String`: JavaScript `null`/`undefined` are
both modelled as `none` (the code only distinguishes them through `== null`
checks, which treat them alike on every reachable path).  `portTok` records
the token given to `Number(...)` (see the file comment). -/
structure Opts where
  host : String
  portTok : String
  lat : Option String
  lon : Option String
  reset : Bool
  noTunnel : Bool
  config : Option String
  help : Bool
deriving DecidableEq, Repr

/-- The initial options record (ios-location.js lines 35-44). -/
def defaultOpts : Opts :=
  { host := DEFAULT_HOST, portTok := defaultPortTok, lat := none, lon := none,
    reset := false, noTunnel := false, config := none, help := false }

/-- The flag tokens recognized by the parser loop (ios-location.js lines 48-55). -/
def recognizedFlags : List String :=
  ["--host", "--port", "--lat", "--lon", "--reset", "--no-tunnel", "--config", "--help", "-h"]

/-- Model of the JS test `a.startsWith("-")`: the first character is a dash.
(Defined over the character list so that it reduces inside the kernel.) -/
def startsWithDash (a : String) : Bool :=
  match a.data with
  | [] => false
  | c :: _ => c = '-'

/-- The parser loop of `parseArgs` (ios-location.js lines 46-60).  Each
value-taking flag consumes the following token (JS `args[++i]`); `|| default`
fallbacks make the empty string fall back to the default where the source has
them (`--host`, `--port`, `--config`), while `--lat`/`--lon` store the next
token verbatim (a missing next token leaves the field `undefined`, modelled
`none`).  A token that starts with `-` and matches no flag is skipped; other
tokens are consumed positionally into `lat` then `lon`. -/
def parseArgsLoop : List String → Opts → Opts
  | [], o => o
  | a :: rest, o =>
    if a = "--host" then
      match rest with
      | [] => { o with host := DEFAULT_HOST }
      | v :: rest2 => parseArgsLoop rest2 { o with host := if v = "" then DEFAULT_HOST else v }
    else if a = "--port" then
      match rest with
      | [] => { o with portTok := defaultPortTok }
      | v :: rest2 => parseArgsLoop rest2 { o with portTok := if v = "" then defaultPortTok else v }
    else if a = "--lat" then
      match rest with
      | [] => { o with lat := none }
      | v :: rest2 => parseArgsLoop rest2 { o with lat := some v }
    else if a = "--lon" then
      match rest with
      | [] => { o with lon := none }
      | v :: rest2 => parseArgsLoop rest2 { o with lon := some v }
    else if a = "--reset" then parseArgsLoop rest { o with reset := true }
    else if a = "--no-tunnel" then parseArgsLoop rest { o with noTunnel := true }
    else if a = "--config" then
      match rest with
      | [] => { o with config := none }
      | v :: rest2 => parseArgsLoop rest2 { o with config := if v = "" then none else some v }
    else if a = "--help" ∨ a = "-h" then parseArgsLoop rest { o with help := true }
    else if ¬ (startsWithDash a = true) then
      if o.lat = none then parseArgsLoop rest { o with lat := some a }
      else if o.lon = none then parseArgsLoop rest { o with lon := some a }
      else parseArgsLoop rest o
    else parseArgsLoop rest o

/-- `parseArgs` (ios-location.js lines 33-63): run the loop from the defaults. -/
def parseArgs (argv : List String) : Opts :=
  parseArgsLoop argv defaultOpts

/-- A parsed config file (ios-location.js lines 124-127): the four optional
keys the code reads.  Values are kept in their `String(...)`-stringified
form; a `none` field models an absent / `null` JSON key. -/
structure Config where
  lat : Option String
  lon : Option String
  host : Option String
  port : Option String
deriving DecidableEq, Repr

/-- The filesystem, as the two pure observations the code makes of it:
`existsSync p` models `fs.existsSync(p)`, and `readParse p` models reading
`p` and parsing it as JSON — `none` when the file is unreadable or is not
valid JSON (the two failure cases `readJsonSafe` collapses). -/
structure FS where
  existsSync : String → Bool
  readParse : String → Option Config

/-- `readJsonSafe` (ios-location.js lines 98-105): returns the parsed config
or `null` on any read/parse error; the `FS` parameter carries that behaviour. -/
def readJsonSafe (fs : FS) (filePath : String) : Option Config :=
  fs.readParse filePath

/-- The default-location search of `resolveConfigPath` (ios-location.js lines
109-115): first existing candidate among `./ios-simloc.config.json`,
`./config.json`, `~/.ios-simloc.json`; existence only — parse validity is not
consulted here. -/
def resolveDefaultConfigPath (fs : FS) (cwd home : String) : Option String :=
  let cwdPath := cwd ++ "/ios-simloc.config.json"
  if fs.existsSync cwdPath = true then some cwdPath
  else
    let cwdGeneric := cwd ++ "/config.json"
    if fs.existsSync cwdGeneric = true then some cwdGeneric
    else
      let homePath := home ++ "/.ios-simloc.json"
      if fs.existsSync homePath = true then some homePath
      else none

/-- `resolveConfigPath` (ios-location.js lines 107-116).  A truthy `cliPath`
(non-empty string) short-circuits to that path (`path.resolve` is modelled as
the identity on the opaque path string); otherwise the default locations are
searched. -/
def resolveConfigPath (fs : FS) (cwd home : String) (cliPath : Option String) : Option String :=
  match cliPath with
  | some p => if p ≠ "" then some p else resolveDefaultConfigPath fs cwd home
  | none => resolveDefaultConfigPath fs cwd home

/-- Line 124: `if (opts.lat == null && cfg.lat != null) opts.lat = String(cfg.lat)`. -/
def fillLat (cfg : Config) (o : Opts) : Opts :=
  if o.lat = none ∧ cfg.lat ≠ none then { o with lat := cfg.lat } else o

/-- Line 125: `if (opts.lon == null && cfg.lon != null) opts.lon = String(cfg.lon)`. -/
def fillLon (cfg : Config) (o : Opts) : Opts :=
  if o.lon = none ∧ cfg.lon ≠ none then { o with lon := cfg.lon } else o

/-- Line 126: `if (opts.host === DEFAULT_HOST && cfg.host) opts.host = String(cfg.host)`
(a missing or empty `cfg.host` is falsy). -/
def fillHost (cfg : Config) (o : Opts) : Opts :=
  match cfg.host with
  | some h => if o.host = DEFAULT_HOST ∧ h ≠ "" then { o with host := h } else o
  | none => o

/-- Line 127: `if (opts.port === DEFAULT_PORT && cfg.port != null) opts.port = Number(cfg.port)`. -/
def fillPort (cfg : Config) (o : Opts) : Opts :=
  if o.portTok = defaultPortTok ∧ cfg.port ≠ none then
    { o with portTok := cfg.port.getD o.portTok }
  else o

/-- `applyConfigDefaults` (ios-location.js lines 118-131): resolve a config
path, read/parse it, and fill only the still-unset fields via the four fill
steps above.  Returns the updated options and the loaded path (`none` when
no config was found or it failed to parse — in the latter case no other
candidate is consulted). -/
def applyConfigDefaults (fs : FS) (cwd home : String) (o : Opts) : Opts × Option String :=
  match resolveConfigPath fs cwd home o.config with
  | none => (o, none)
  | some cfgPath =>
    match readJsonSafe fs cfgPath with
    | none => (o, none)
    | some cfg => (fillPort cfg (fillHost cfg (fillLon cfg (fillLat cfg o))), some cfgPath)

/-- Outcome of the validation prologue of the main IIFE: either usage text is
printed and the process exits with code 1 (`printUsageAndExit`, ios-location.js
lines 65-96), or execution proceeds with the final options record. -/
inductive ValidateResult where
  | usageExit1
  | proceed (o : Opts)
deriving DecidableEq, Repr

/-- The exit code used by `printUsageAndExit` (ios-location.js line 95). -/
def usageExitCode : Nat := 1

/-- The tail of the validation prologue (ios-location.js lines 301-304): after
`applyConfigDefaults`, still-missing coordinates mean usage + exit 1, otherwise
execution proceeds with the config-completed options. -/
def validateAfterConfig (fs : FS) (cwd home : String) (o : Opts) : ValidateResult :=
  let o2 := (applyConfigDefaults fs cwd home o).1
  if o2.lat = none ∨ o2.lon = none then ValidateResult.usageExit1
  else ValidateResult.proceed o2

/-- The validation prologue of the main IIFE (ios-location.js lines 285-305):
`--help` short-circuits to usage; no arguments at all (`process.argv.length
=== 2`) prints usage; a non-reset run with a missing coordinate attempts the
config file and then re-checks; otherwise execution proceeds. -/
def mainValidate (argv : List String) (fs : FS) (cwd home : String) : ValidateResult :=
  let o := parseArgs argv
  if o.help = true then ValidateResult.usageExit1
  else if argv = [] then ValidateResult.usageExit1
  else if o.reset = false ∧ (o.lat = none ∨ o.lon = none) then
    validateAfterConfig fs cwd home o
  else ValidateResult.proceed o

/-- Characters removed by `String.prototype.trim` on the inputs at issue
(ASCII whitespace and line terminators). -/
def jsWhitespace (c : Char) : Bool :=
  c = ' ' ∨ c = '\t' ∨ c = '\n' ∨ c = '\r' ∨ c = '\x0b' ∨ c = '\x0c'

/-- Model of `s.trim()` (used on captured stderr, ios-location.js lines 226
and 265), defined over the character list so that it reduces in the kernel. -/
def jsTrim (s : String) : String :=
  String.mk (((s.data.dropWhile jsWhitespace).reverse.dropWhile jsWhitespace).reverse)

/-- Model of `String(x)` on an option field that may be `null` (JS renders
`null` as "null"); on every validated execution path the argument is `some`. -/
def jsStringOfOpt : Option String → String
  | some s => s
  | none => "null"

/-- The two stdio configurations the script uses when spawning: `"inherit"`
(tunneld, ios-location.js line 183) and `["ignore", "pipe", "pipe"]`
(set/reset, lines 204 and 242). -/
inductive StdioMode where
  | inherit
  | captured
deriving DecidableEq, Repr

/-- Outcome of one spawned subprocess, as the script observes it: either the
`error` event fired because the process could not be started (with the system
error message), or the process exited with an exit code (`none` models a JS
`null` code, i.e. termination by signal) and some accumulated stderr text. -/
inductive SpawnOutcome where
  | startError (msg : String)
  | exited (code : Option Nat) (stderrText : String)
deriving DecidableEq, Repr

/-- Render an exit code the way the template literal `${code}` does. -/
def jsCodeStr : Option Nat → String
  | some n => toString n
  | none => "null"

/-- The command string used for the set/reset subprocesses (ios-location.js
lines 191 and 234). -/
def simulateCmd : String := "pymobiledevice3"

/-- The argument vector of `runSimulateLocation` (ios-location.js lines
192-200): the subcommand path, the end-of-options marker `--`, then the two
stringified coordinates. -/
def simulateLocationArgs (lat lon : String) : List String :=
  ["developer", "dvt", "simulate-location", "set", "--", lat, lon]

/-- Stdio mode of the set-location spawn (ios-location.js lines 203-205). -/
def simulateStdio : StdioMode := StdioMode.captured

/-- The promise result of `runSimulateLocation` (ios-location.js lines
203-230) as a function of the subprocess outcome: exit code 0 resolves;
any other exit rejects with trimmed stderr when non-empty, else with the
generic `exited with code N` message; an `error` event rejects with the
`Failed to start` message. -/
def runSimulateResult : SpawnOutcome → Except String Unit
  | SpawnOutcome.startError m => Except.error ("Failed to start pymobiledevice3: " ++ m)
  | SpawnOutcome.exited code stderrText =>
    if code = some 0 then Except.ok ()
    else if jsTrim stderrText ≠ "" then Except.error (jsTrim stderrText)
    else Except.error ("simulate-location exited with code " ++ jsCodeStr code)

/-- The argument vector builder `makeArgs` of `runResetLocation`
(ios-location.js line 235). -/
def resetMakeArgs (sub : String) : List String :=
  ["developer", "dvt", "simulate-location", sub]

/-- Stdio mode of each reset-candidate spawn (ios-location.js lines 241-243). -/
def resetStdio : StdioMode := StdioMode.captured

/-- The fixed candidate list of `runResetLocation` (ios-location.js line 273). -/
def resetCandidates : List String :=
  ["reset", "clear", "unset", "stop"]

/-- Whether one `tryRun(sub)` resolves `true` (ios-location.js lines 237-270):
only a clean exit with code 0 does; an `error` event or any other exit code
resolves `false` (after logging a diagnostic). -/
def tryRunOk : SpawnOutcome → Bool
  | SpawnOutcome.exited (some 0) _ => true
  | SpawnOutcome.exited (some (_ + 1)) _ => false
  | SpawnOutcome.exited none _ => false
  | SpawnOutcome.startError _ => false

/-- Observable events of the reset fallback loop: a candidate spawn
(`[reset] running: ...`) and the failure diagnostic logged for it. -/
inductive ResetEv where
  | attempt (sub : String)
  | diag (sub : String)
deriving DecidableEq, Repr

/-- The reset fallback loop (ios-location.js lines 273-279) over a candidate
list: run each candidate in order; stop with success at the first `tryRun`
that resolves `true`; log a diagnostic after each failure and advance.
Returns the event trace and whether some candidate succeeded.  The outcome of
the (at most one) spawn of candidate `sub` is `out sub`. -/
def resetLoop (out : String → SpawnOutcome) : List String → List ResetEv × Bool
  | [] => ([], false)
  | sub :: rest =>
    if tryRunOk (out sub) = true then ([ResetEv.attempt sub], true)
    else
      let r := resetLoop out rest
      (ResetEv.attempt sub :: ResetEv.diag sub :: r.1, r.2)

/-- The event trace contributed by a list of failing candidates: each is
attempted and then gets its failure diagnostic. -/
def failEvents : List String → List ResetEv
  | [] => []
  | s :: t => ResetEv.attempt s :: ResetEv.diag s :: failEvents t

/-- The aggregate error thrown when every candidate fails (ios-location.js
lines 280-282). -/
def resetExhaustMsg : String :=
  "simulate-location reset/clear failed. Check \x27pymobiledevice3 developer dvt simulate-location -h\x27 for supported subcommands."

/-- `runResetLocation` (ios-location.js lines 233-283): run the fallback loop
over the fixed candidates; return normally on the first success, otherwise
throw the aggregate error. -/
def runResetLocation (out : String → SpawnOutcome) : List ResetEv × Except String Unit :=
  let r := resetLoop out resetCandidates
  (r.1, if r.2 = true then Except.ok () else Except.error resetExhaustMsg)

/-- The fixed per-attempt socket timeout of `waitForPort`
(`socket.setTimeout(2000)`, ios-location.js line 139). -/
def perAttemptTimeoutMs : Nat := 2000

/-- The three events a polling socket can fire (ios-location.js lines
140-151): `connect`, `timeout`, `error`. -/
inductive AttemptOutcome where
  | connected
  | timedOut
  | errored
deriving DecidableEq, Repr

/-- What the `once` handlers of one attempt do next: resolve the promise with
`true`, or call `tryAgain`. -/
inductive SocketStep where
  | resolveReady
  | tryAgain
deriving DecidableEq, Repr

/-- Dispatch of the socket events (ios-location.js lines 140-151): `connect`
resolves; `timeout` and `error` both destroy the socket and call `tryAgain`. -/
def socketDispatch : AttemptOutcome → SocketStep
  | AttemptOutcome.connected => SocketStep.resolveReady
  | AttemptOutcome.timedOut => SocketStep.tryAgain
  | AttemptOutcome.errored => SocketStep.tryAgain

/-- Start time (relative to `start`) of the `k`-th connection attempt of
`waitForPort` (ios-location.js lines 137-163): the first attempt starts
immediately; after a failed attempt of duration `d k`, `tryAgain` schedules
the next attempt `intervalMs` later (`setTimeout(check, intervalMs)`). -/
def checkTime (intervalMs : Nat) (d : Nat → Nat) : Nat → Nat
  | 0 => 0
  | k + 1 => checkTime intervalMs d k + d k + intervalMs

/-- `waitForPort` rejects at attempt `k`: every earlier failed attempt
finished within the budget (`Date.now() - start > timeoutMs` was false in its
`tryAgain`), and attempt `k` finishes past the budget. -/
def rejectsAtStep (timeoutMs intervalMs : Nat) (d : Nat → Nat) (k : Nat) : Prop :=
  (∀ j, j < k → checkTime intervalMs d j + d j ≤ timeoutMs) ∧
  timeoutMs < checkTime intervalMs d k + d k

/-- The rejection message of `waitForPort` (ios-location.js line 157). -/
def waitTimeoutMsg (host : String) (port timeoutMs : Nat) : String :=
  "Timeout: " ++ host ++ ":" ++ toString port ++ " not ready within " ++ toString timeoutMs ++ "ms"

/-- Whether the JS value `tunnelProc.pid` is truthy (a number other than 0;
`undefined`, modelled `none`, is falsy). -/
def pidTruthy : Option Nat → Bool
  | some p => p ≠ 0
  | none => false

/-- The `killed` flag of the tunnel child: the script never calls the
`.kill()` method (it signals through `process.kill`), so the flag stays
`false` for the whole run. -/
def tunnelKilledFlag : Bool := false

/-- Observable events of the main IIFE (ios-location.js lines 285-352). -/
inductive MEv where
  | spawnTunnel
  | registerSignalHandlers
  | waitPort
  | runSet (args : List String)
  | runReset
  | sigtermTunnel
deriving DecidableEq, Repr

/-- The `clean` closure and the `finally` block (ios-location.js lines
313-321 and 344-350): send SIGTERM to the tunnel process when the handle is
present, not `.killed`, and has a truthy pid. -/
def cleanTunnelEvents (pid : Option Nat) : List MEv :=
  if tunnelKilledFlag = false ∧ pidTruthy pid = true then [MEv.sigtermTunnel] else []

/-- The two signals the script handles (ios-location.js lines 322-323). -/
inductive Sig where
  | int
  | term
deriving DecidableEq, Repr

/-- The signal-specific exit codes (ios-location.js lines 322-323). -/
def sigExitCode : Sig → Nat
  | Sig.int => 130
  | Sig.term => 143

/-- A registered signal handler run (ios-location.js lines 322-323): `clean()`
then `process.exit(130/143)`.  Returns the emitted events and the exit code. -/
def signalHandlerRun (pid : Option Nat) (sig : Sig) : List MEv × Nat :=
  (cleanTunnelEvents pid, sigExitCode sig)

/-- The environment outcomes one run of the main IIFE can encounter:
whether `waitForPort` resolves, the set-location subprocess outcome, the
per-candidate reset outcomes, and the pid the tunnel spawn produced. -/
structure Scenario where
  waitReady : Bool
  setOutcome : SpawnOutcome
  resetOut : String → SpawnOutcome
  tunnelPid : Option Nat

/-- The `try` block dispatch (ios-location.js lines 309-338): a wait
rejection aborts the dispatch with an error; otherwise the reset driver or
the set-location subprocess runs; the Bool records whether the `catch` block
runs. -/
def mainBody (o : Opts) (sc : Scenario) : List MEv × Bool :=
  if (!o.noTunnel && !sc.waitReady) = true then ([], true)
  else if o.reset = true then
    match (runResetLocation sc.resetOut).2 with
    | Except.ok _ => ([MEv.runReset], false)
    | Except.error _ => ([MEv.runReset], true)
  else
    let args := simulateLocationArgs (jsStringOfOpt o.lat) (jsStringOfOpt o.lon)
    match runSimulateResult sc.setOutcome with
    | Except.ok _ => ([MEv.runSet args], false)
    | Except.error _ => ([MEv.runSet args], true)

/-- The post-validation main IIFE (ios-location.js lines 307-352), as a
trace of events plus the final `process.exitCode` (0 unless the `catch`
block set 2 for reset or 1 otherwise).  When `--no-tunnel` is not given the
tunnel is spawned, the signal handlers are registered, and the port wait
runs; the `finally` block appends the tunnel SIGTERM events last. -/
def mainRun (o : Opts) (sc : Scenario) : List MEv × Nat :=
  let pre : List MEv :=
    if o.noTunnel = true then []
    else [MEv.spawnTunnel, MEv.registerSignalHandlers, MEv.waitPort]
  let body := mainBody o sc
  let exitCode : Nat := if body.2 = true then (if o.reset = true then 2 else 1) else 0
  let fin : List MEv := if o.noTunnel = true then [] else cleanTunnelEvents sc.tunnelPid
  (pre ++ body.1 ++ fin, exitCode)

/-! ## Concrete fixtures used by witnesses and counterexamples -/

/-- A filesystem with no readable files. -/
def fsEmpty : FS :=
  { existsSync := fun _ => false, readParse := fun _ => none }

/-- A filesystem where `./ios-simloc.config.json` exists but is not valid
JSON, while `./config.json` exists and parses with both coordinates set
(cwd is modelled as the opaque prefix `/w`). -/
def fsBadFirst : FS :=
  { existsSync := fun p => p = "/w/ios-simloc.config.json" ∨ p = "/w/config.json",
    readParse := fun p =>
      if p = "/w/config.json" then
        some { lat := some ("1.5"), lon := some ("2.5"), host := none, port := none }
      else none }

/-- Options for a `--reset --no-tunnel` run. -/
def resetFailOpts : Opts :=
  { defaultOpts with reset := true, noTunnel := true }

/-- A scenario in which every reset candidate exits with code 1. -/
def resetFailScenario : Scenario :=
  { waitReady := true, setOutcome := SpawnOutcome.exited (some 0) "",
    resetOut := fun _ => SpawnOutcome.exited (some 1) "nope", tunnelPid := none }

/-- A scenario for a tunnel run: the port becomes ready, the set subprocess
succeeds, and the tunnel child has pid 7. -/
def tunnelOkScenario : Scenario :=
  { waitReady := true, setOutcome := SpawnOutcome.exited (some 0) "",
    resetOut := fun _ => SpawnOutcome.exited (some 1) "", tunnelPid := some 7 }

/-- An argument vector containing the unrecognized flag `--bogus` along with
valid coordinates. -/
def c9Argv : List String :=
  ["--no-tunnel", "--lat", "1", "--lon", "2", "--bogus"]

/-- A filesystem whose `./ios-simloc.config.json` exists, parses, and
supplies both coordinates. -/
def fsBothCoords : FS :=
  { existsSync := fun p => p = "/w/ios-simloc.config.json",
    readParse := fun p =>
      if p = "/w/ios-simloc.config.json" then
        some { lat := some ("37.5"), lon := some ("127.0"), host := none, port := none }
      else none }

/-! ## Theorems -/

/-- Helper: the last element of a trace that ends in a final singleton. -/
lemma getLast?_append_last {α : Type} (l1 l2 : List α) (a : α) :
    (l1 ++ l2 ++ [a]).getLast? = some a := by
  rw [List.append_assoc, List.getLast?_append_of_ne_nil l1 (by simp),
    List.getLast?_append_cons]
  rfl

/-- Helper: the reset fallback loop, characterized on an arbitrary candidate
list: the trace is the attempt/diagnostic pairs of the maximal failing
prefix, followed by the attempt of the first succeeding candidate when one
exists, and the loop succeeds exactly when some candidate succeeds. -/
lemma resetLoop_spec (out : String → SpawnOutcome) (l : List String) :
    (resetLoop out l).1 =
      failEvents (l.takeWhile (fun s => !tryRunOk (out s))) ++
        ((l.find? (fun s => tryRunOk (out s))).toList.map ResetEv.attempt) ∧
    (resetLoop out l).2 = (l.find? (fun s => tryRunOk (out s))).isSome := by
  induction l with
  | nil => exact ⟨rfl, rfl⟩
  | cons s rest ih =>
    by_cases h : tryRunOk (out s) = true
    · simp [resetLoop, h, List.takeWhile_cons, List.find?_cons, failEvents]
    · have hb : tryRunOk (out s) = false := by
        cases hx : tryRunOk (out s)
        · rfl
        · exact absurd hx h
      simp [resetLoop, hb, List.takeWhile_cons, List.find?_cons, failEvents, ih.1, ih.2]

/-- C4: `runResetLocation` tries exactly the candidates `reset`, `clear`,
`unset`, `stop` in that order, each spawned in captured mode; only exit code
0 counts as success; the loop stops at the first success without attempting
later candidates, and each failed candidate is followed by its diagnostic
before the next attempt. -/
theorem reset_candidates_order_first_success (out : String → SpawnOutcome) :
    resetCandidates = [("reset" : String), "clear", "unset", "stop"] ∧
    resetStdio = StdioMode.captured ∧
    (∀ s, tryRunOk (SpawnOutcome.exited (some 0) s) = true) ∧
    (∀ n s, tryRunOk (SpawnOutcome.exited (some (n + 1)) s) = false) ∧
    (∀ s, tryRunOk (SpawnOutcome.exited none s) = false) ∧
    (∀ m, tryRunOk (SpawnOutcome.startError m) = false) ∧
    (resetLoop out resetCandidates).1 =
      failEvents (resetCandidates.takeWhile (fun s => !tryRunOk (out s))) ++
        ((resetCandidates.find? (fun s => tryRunOk (out s))).toList.map ResetEv.attempt) ∧
    (resetLoop out resetCandidates).2 =
      (resetCandidates.find? (fun s => tryRunOk (out s))).isSome := by
  refine ⟨rfl, rfl, fun s => rfl, fun n s => rfl, fun s => rfl, fun m => rfl, ?_, ?_⟩
  · exact (resetLoop_spec out resetCandidates).1
  · exact (resetLoop_spec out resetCandidates).2

/-- C5: when all four reset candidates fail, `runResetLocation` throws the
single aggregate error pointing at the external tool's own help output, the
orchestrator run exits with code 2, and a non-reset run whose set-location
subprocess fails exits with code 1. -/
theorem reset_exhaustion_error_and_exit_codes (o : Opts) (sc : Scenario)
    (hfail : ∀ s ∈ resetCandidates, tryRunOk (sc.resetOut s) = false)
    (hreset : o.reset = true) (hok : o.noTunnel = true ∨ sc.waitReady = true) :
    (runResetLocation sc.resetOut).2 = Except.error resetExhaustMsg ∧
    resetExhaustMsg =
      "simulate-location reset/clear failed. Check \x27pymobiledevice3 developer dvt simulate-location -h\x27 for supported subcommands." ∧
    (mainRun o sc).2 = 2 ∧
    (∀ o2 sc2, o2.reset = false → (o2.noTunnel = true ∨ sc2.waitReady = true) →
      (∃ msg, runSimulateResult sc2.setOutcome = Except.error msg) →
      (mainRun o2 sc2).2 = 1) := by
  have hnone : resetCandidates.find? (fun s => tryRunOk (sc.resetOut s)) = none := by
    apply List.find?_eq_none.mpr
    intro a ha
    simp [hfail a ha]
  have hloop : (resetLoop sc.resetOut resetCandidates).2 = false := by
    rw [(resetLoop_spec sc.resetOut resetCandidates).2, hnone]
    rfl
  have hres : (runResetLocation sc.resetOut).2 = Except.error resetExhaustMsg := by
    simp [runResetLocation, hloop]
  refine ⟨hres, rfl, ?_, ?_⟩
  · have hbody : (mainBody o sc).2 = true := by
      unfold mainBody
      rcases hok with hnt | hwr
      · simp [hnt, hreset, hres]
      · simp [hwr, hreset, hres]
    simp [mainRun, hbody, hreset]
  · intro o2 sc2 h1 h2 hmsg
    obtain ⟨msg, hmsg⟩ := hmsg
    have hbody : (mainBody o2 sc2).2 = true := by
      unfold mainBody
      rcases h2 with hnt | hwr
      · simp [hnt, h1, hmsg]
      · simp [hwr, h1, hmsg]
    simp [mainRun, hbody, h1]

/-- Witness for C5: concrete reset-exhaustion run (all candidates exit 1,
`--no-tunnel --reset`) and its exit codes. -/
theorem reset_exhaustion_error_and_exit_codes_witness :
    (runResetLocation resetFailScenario.resetOut).2 = Except.error resetExhaustMsg ∧
    resetExhaustMsg =
      "simulate-location reset/clear failed. Check \x27pymobiledevice3 developer dvt simulate-location -h\x27 for supported subcommands." ∧
    (mainRun resetFailOpts resetFailScenario).2 = 2 ∧
    (∀ o2 sc2, o2.reset = false → (o2.noTunnel = true ∨ sc2.waitReady = true) →
      (∃ msg, runSimulateResult sc2.setOutcome = Except.error msg) →
      (mainRun o2 sc2).2 = 1) :=
  reset_exhaustion_error_and_exit_codes resetFailOpts resetFailScenario
    (fun _ _ => rfl) rfl (Or.inl rfl)

/-- C2: on every exit path of the orchestrator with a spawned tunnel (success,
wait-timeout, set failure, reset exhaustion — the trace shape is independent
of the dispatch outcome), the SIGTERM to the tunnel process is the last event
of the run; the signal handlers likewise send SIGTERM to a live tunnel before
exiting with the signal-specific code; and a `--no-tunnel` run neither spawns
nor signals a tunnel. -/
theorem tunnel_cleanup_on_all_exits (o : Opts) (sc : Scenario) (pid : Option Nat)
    (hspawn : o.noTunnel = false) (hpid : pidTruthy sc.tunnelPid = true)
    (hp2 : pidTruthy pid = true) :
    (mainRun o sc).1.getLast? = some MEv.sigtermTunnel ∧
    MEv.spawnTunnel ∈ (mainRun o sc).1 ∧
    (∀ sig, signalHandlerRun pid sig = ([MEv.sigtermTunnel], sigExitCode sig)) ∧
    signalHandlerRun pid Sig.int = ([MEv.sigtermTunnel], 130) ∧
    signalHandlerRun pid Sig.term = ([MEv.sigtermTunnel], 143) ∧
    (∀ o2 sc2, o2.noTunnel = true →
      MEv.spawnTunnel ∉ (mainRun o2 sc2).1 ∧ MEv.sigtermTunnel ∉ (mainRun o2 sc2).1) := by
  have hclean : cleanTunnelEvents sc.tunnelPid = [MEv.sigtermTunnel] := by
    simp [cleanTunnelEvents, tunnelKilledFlag, hpid]
  have htr : (mainRun o sc).1 =
      [MEv.spawnTunnel, MEv.registerSignalHandlers, MEv.waitPort] ++
        (mainBody o sc).1 ++ [MEv.sigtermTunnel] := by
    simp only [mainRun, hspawn, hclean, Bool.false_eq_true, if_false]
  have hsig : ∀ sig, signalHandlerRun pid sig = ([MEv.sigtermTunnel], sigExitCode sig) := by
    intro sig
    simp [signalHandlerRun, cleanTunnelEvents, tunnelKilledFlag, hp2]
  refine ⟨?_, ?_, hsig, hsig Sig.int, hsig Sig.term, ?_⟩
  · rw [htr]
    exact getLast?_append_last _ _ _
  · rw [htr]
    simp
  · intro o2 sc2 h2
    have hb : MEv.spawnTunnel ∉ (mainBody o2 sc2).1 ∧ MEv.sigtermTunnel ∉ (mainBody o2 sc2).1 := by
      unfold mainBody
      split
      · simp
      · split
        · split <;> simp
        · split <;> simp
    have htr2 : (mainRun o2 sc2).1 = (mainBody o2 sc2).1 := by
      simp [mainRun, h2]
    rw [htr2]
    exact hb

/-- Helper: the host fill step never touches the coordinates. -/
lemma fillHost_coords (cfg : Config) (o : Opts) :
    (fillHost cfg o).lat = o.lat ∧ (fillHost cfg o).lon = o.lon := by
  cases hh : cfg.host with
  | none => simp [fillHost, hh]
  | some h =>
    simp only [fillHost, hh]
    split_ifs <;> exact ⟨rfl, rfl⟩

/-- Helper: the port fill step never touches the coordinates. -/
lemma fillPort_coords (cfg : Config) (o : Opts) :
    (fillPort cfg o).lat = o.lat ∧ (fillPort cfg o).lon = o.lon := by
  unfold fillPort
  split_ifs <;> exact ⟨rfl, rfl⟩

/-- Helper: the lon fill step never touches `lat`, and the lat fill step
never touches `lon`. -/
lemma fillLon_lat_fillLat_lon (cfg : Config) (o : Opts) :
    (fillLon cfg o).lat = o.lat ∧ (fillLat cfg o).lon = o.lon := by
  constructor
  · unfold fillLon
    split_ifs <;> rfl
  · unfold fillLat
    split_ifs <;> rfl

/-- Helper: config filling never unsets a coordinate — if a coordinate is
`none` after `applyConfigDefaults`, it was `none` before. -/
lemma applyConfigDefaults_none_mono (fs : FS) (cwd home : String) (o : Opts) :
    ((applyConfigDefaults fs cwd home o).1.lat = none → o.lat = none) ∧
    ((applyConfigDefaults fs cwd home o).1.lon = none → o.lon = none) := by
  rcases hres : resolveConfigPath fs cwd home o.config with _ | p
  · simp [applyConfigDefaults, hres]
  · rcases hjson : readJsonSafe fs p with _ | cfg
    · simp [applyConfigDefaults, hres, hjson]
    · have h1 : (applyConfigDefaults fs cwd home o).1 =
          fillPort cfg (fillHost cfg (fillLon cfg (fillLat cfg o))) := by
        simp [applyConfigDefaults, hres, hjson]
      have hlat : (applyConfigDefaults fs cwd home o).1.lat = (fillLat cfg o).lat := by
        rw [h1, (fillPort_coords cfg _).1, (fillHost_coords cfg _).1,
          (fillLon_lat_fillLat_lon cfg _).1]
      have hlon : (applyConfigDefaults fs cwd home o).1.lon =
          (fillLon cfg (fillLat cfg o)).lon := by
        rw [h1, (fillPort_coords cfg _).2, (fillHost_coords cfg _).2]
      constructor
      · intro h
        rw [hlat] at h
        unfold fillLat at h
        split_ifs at h with hc
        · exact hc.1
        · exact h
      · intro h
        rw [hlon] at h
        unfold fillLon at h
        split_ifs at h with hc
        · exact absurd h hc.2
        · exact (fillLon_lat_fillLat_lon cfg o).2 ▸ h

/-- C6, counterexample to the original claim: the empty invocation has reset
not requested and both coordinates unset after parsing, and a config file
exists that would fill both coordinates — under the claim the config would be
loaded and execution would proceed — yet the program prints usage and exits 1
(lines 295-297 run before the config branch at lines 300-305); the bare
`--help` invocation diverges the same way. -/
theorem validation_empty_invocation_counterexample :
    (parseArgs ([] : List String)).reset = false ∧
    (parseArgs ([] : List String)).lat = none ∧
    (parseArgs ([] : List String)).lon = none ∧
    (applyConfigDefaults fsBothCoords "/w" "/h" (parseArgs ([] : List String))).1.lat =
      some ("37.5") ∧
    (applyConfigDefaults fsBothCoords "/w" "/h" (parseArgs ([] : List String))).1.lon =
      some ("127.0") ∧
    mainValidate ([] : List String) fsBothCoords "/w" "/h" = ValidateResult.usageExit1 ∧
    (parseArgs [("--help")]).lat = none ∧
    (parseArgs [("--help")]).reset = false ∧
    mainValidate [("--help")] fsBothCoords "/w" "/h" = ValidateResult.usageExit1 := by
  exact ⟨by decide, by decide, by decide, by decide, by decide, by decide, by decide,
    by decide, by decide⟩

/-- C6, amended: `--help` or an empty invocation prints usage and exits 1
immediately, without consulting any config file; apart from those two
short-circuits, if reset was not requested and a coordinate is still unset
after flag and positional parsing, the program consults the config file
before deciding between usage error and execution (the run is exactly
`validateAfterConfig`); and on every proceed outcome either reset is true or
both coordinates are non-null. -/
theorem validation_config_before_usage (argv : List String) (fs : FS) (cwd home : String) :
    (∀ o2, mainValidate argv fs cwd home = ValidateResult.proceed o2 →
      o2.reset = true ∨ (o2.lat ≠ none ∧ o2.lon ≠ none)) ∧
    ((parseArgs argv).help = true → mainValidate argv fs cwd home = ValidateResult.usageExit1) ∧
    (argv = [] → mainValidate argv fs cwd home = ValidateResult.usageExit1) ∧
    usageExitCode = 1 ∧
    ((parseArgs argv).help = false → argv ≠ [] → (parseArgs argv).reset = false →
      ((parseArgs argv).lat = none ∨ (parseArgs argv).lon = none) →
      mainValidate argv fs cwd home = validateAfterConfig fs cwd home (parseArgs argv)) := by
  refine ⟨?_, ?_, ?_, rfl, ?_⟩
  · intro o2 h
    simp only [mainValidate] at h
    split at h
    · exact absurd h (by simp)
    split at h
    · exact absurd h (by simp)
    split at h
    · simp only [validateAfterConfig] at h
      split at h
      · exact absurd h (by simp)
      · rename_i hmiss
        push_neg at hmiss
        injection h with h2
        exact Or.inr (h2 ▸ ⟨hmiss.1, hmiss.2⟩)
    · rename_i hc
      injection h with h2
      subst h2
      by_cases hr : (parseArgs argv).reset = true
      · exact Or.inl hr
      · have hr2 : (parseArgs argv).reset = false := by
          cases hx : (parseArgs argv).reset
          · rfl
          · exact absurd hx hr
        have : ¬ ((parseArgs argv).lat = none ∨ (parseArgs argv).lon = none) :=
          fun hor => hc ⟨hr2, hor⟩
        push_neg at this
        exact Or.inr this
  · intro hh
    simp only [mainValidate]
    rw [if_pos hh]
  · intro hnil
    by_cases hh : (parseArgs argv).help = true
    · simp only [mainValidate]
      rw [if_pos hh]
    · simp only [mainValidate]
      rw [if_neg hh, if_pos hnil]
  · intro h1 h2 h3 h4
    simp only [mainValidate]
    rw [if_neg (by simp [h1]), if_neg h2, if_pos ⟨h3, h4⟩]

/-- Witness for C6 (amended): with no config files, `--lat 1` alone goes
through the config-completion path (and ends in a usage error there), and
the bare `--help` invocation short-circuits to usage. -/
theorem validation_config_before_usage_witness :
    (mainValidate [("--lat"), "1"] fsEmpty "/w" "/h" =
      validateAfterConfig fsEmpty "/w" "/h" (parseArgs [("--lat"), "1"])) ∧
    mainValidate [("--help")] fsEmpty "/w" "/h" = ValidateResult.usageExit1 :=
  ⟨(validation_config_before_usage [("--lat"), "1"] fsEmpty "/w" "/h").2.2.2.2
      rfl (by decide) rfl (Or.inr rfl),
    (validation_config_before_usage [("--help")] fsEmpty "/w" "/h").2.1 rfl⟩

/-- C7, counterexample: `./ios-simloc.config.json` exists but does not parse,
`./config.json` exists and parses with both coordinates — yet nothing is
filled (so the first candidate that exists and parses is NOT the file whose
fields fill the unset options), and a coordinate-less run still ends in a
usage error. -/
theorem config_first_existing_not_parsing_counterexample :
    fsBadFirst.existsSync ("/w/ios-simloc.config.json") = true ∧
    readJsonSafe fsBadFirst ("/w/ios-simloc.config.json") = none ∧
    fsBadFirst.existsSync ("/w/config.json") = true ∧
    readJsonSafe fsBadFirst ("/w/config.json") =
      some { lat := some ("1.5"), lon := some ("2.5"), host := none, port := none } ∧
    applyConfigDefaults fsBadFirst "/w" "/h" defaultOpts = (defaultOpts, none) ∧
    mainValidate [("--no-tunnel")] fsBadFirst "/w" "/h" = ValidateResult.usageExit1 := by
  exact ⟨by decide, by decide, by decide, by decide, by decide, by decide⟩

/-- C7, amended: the config path selection picks the explicit `--config`
path unconditionally, else the first candidate that EXISTS (parse validity
is not consulted during selection); the selected file's fields fill unset
options only when it parses — if it exists but fails to parse, no fields are
filled and no later candidate is consulted; with an explicit `--config`,
only that path is ever the loaded file. -/
theorem config_precedence_amended (fs : FS) (cwd home : String) (o : Opts) :
    (∀ p, o.config = some p → p ≠ "" → resolveConfigPath fs cwd home o.config = some p) ∧
    (fs.existsSync (cwd ++ "/ios-simloc.config.json") = true →
      resolveDefaultConfigPath fs cwd home = some (cwd ++ "/ios-simloc.config.json")) ∧
    (fs.existsSync (cwd ++ "/ios-simloc.config.json") = false →
      fs.existsSync (cwd ++ "/config.json") = true →
      resolveDefaultConfigPath fs cwd home = some (cwd ++ "/config.json")) ∧
    (fs.existsSync (cwd ++ "/ios-simloc.config.json") = false →
      fs.existsSync (cwd ++ "/config.json") = false →
      fs.existsSync (home ++ "/.ios-simloc.json") = true →
      resolveDefaultConfigPath fs cwd home = some (home ++ "/.ios-simloc.json")) ∧
    (∀ p, resolveConfigPath fs cwd home o.config = some p → readJsonSafe fs p = none →
      applyConfigDefaults fs cwd home o = (o, none)) ∧
    (resolveConfigPath fs cwd home o.config = none →
      applyConfigDefaults fs cwd home o = (o, none)) ∧
    (∀ p p2, o.config = some p → p ≠ "" →
      (applyConfigDefaults fs cwd home o).2 = some p2 → p2 = p) := by
  refine ⟨?_, ?_, ?_, ?_, ?_, ?_, ?_⟩
  · intro p hp hne
    simp [resolveConfigPath, hp, hne]
  · intro h1
    simp [resolveDefaultConfigPath, h1]
  · intro h1 h2
    simp [resolveDefaultConfigPath, h1, h2]
  · intro h1 h2 h3
    simp [resolveDefaultConfigPath, h1, h2, h3]
  · intro p hp hn
    simp [applyConfigDefaults, hp, hn]
  · intro hn
    simp [applyConfigDefaults, hn]
  · intro p p2 hp hne h2
    have h1 : resolveConfigPath fs cwd home o.config = some p := by
      simp [resolveConfigPath, hp, hne]
    rcases hjson : readJsonSafe fs p with _ | cfg
    · simp [applyConfigDefaults, h1, hjson] at h2
    · simp [applyConfigDefaults, h1, hjson] at h2
      exact h2.symm

/-- Witness for C7 (amended): on the bad-first filesystem the selected file
is the existing-but-unparsable first candidate, and nothing is filled. -/
theorem config_precedence_amended_witness :
    applyConfigDefaults fsBadFirst "/w" "/h" defaultOpts = (defaultOpts, none) :=
  (config_precedence_amended fsBadFirst "/w" "/h" defaultOpts).2.2.2.2.1
    ("/w/ios-simloc.config.json") (by decide) (by decide)

/-- Witness for C2: a concrete tunnel run (pid 7, successful set) has the
tunnel SIGTERM as its final event. -/
theorem tunnel_cleanup_on_all_exits_witness :
    (mainRun defaultOpts tunnelOkScenario).1.getLast? = some MEv.sigtermTunnel ∧
    MEv.spawnTunnel ∈ (mainRun defaultOpts tunnelOkScenario).1 ∧
    (∀ sig, signalHandlerRun (some 7) sig = ([MEv.sigtermTunnel], sigExitCode sig)) ∧
    signalHandlerRun (some 7) Sig.int = ([MEv.sigtermTunnel], 130) ∧
    signalHandlerRun (some 7) Sig.term = ([MEv.sigtermTunnel], 143) ∧
    (∀ o2 sc2, o2.noTunnel = true →
      MEv.spawnTunnel ∉ (mainRun o2 sc2).1 ∧ MEv.sigtermTunnel ∉ (mainRun o2 sc2).1) :=
  tunnel_cleanup_on_all_exits defaultOpts tunnelOkScenario (some 7) rfl rfl rfl

/-- C3: for every latitude/longitude pair (arbitrary strings, so in
particular negative decimal values), the set-location invocation uses the
external tool with exactly the argument vector
`["developer", "dvt", "simulate-location", "set", "--", lat, lon]`: the
literal `--` end-of-options marker sits at index 4, immediately before the
two stringified coordinates. -/
theorem simulate_args_end_of_options (lat lon : String) :
    simulateLocationArgs lat lon =
      [("developer" : String), "dvt", "simulate-location", "set", "--", lat, lon] ∧
    (simulateLocationArgs lat lon)[4]? = some ("--") ∧
    (simulateLocationArgs lat lon).drop 5 = [lat, lon] ∧
    simulateCmd = "pymobiledevice3" ∧
    simulateStdio = StdioMode.captured := by
  refine ⟨rfl, rfl, rfl, rfl, rfl⟩

/-- C8: in the captured-mode runner for set-location, exit code 0 resolves;
a non-zero (or null) exit code rejects with the trimmed stderr text when that
is non-empty and with the generic `simulate-location exited with code N`
message otherwise; a failure to start the process rejects with the distinct
`Failed to start pymobiledevice3: ...` message. -/
theorem captured_runner_result_mapping :
    (∀ s, runSimulateResult (SpawnOutcome.exited (some 0) s) = Except.ok ()) ∧
    (∀ c s, ¬ c = some 0 → ¬ jsTrim s = "" →
      runSimulateResult (SpawnOutcome.exited c s) = Except.error (jsTrim s)) ∧
    (∀ c s, ¬ c = some 0 → jsTrim s = "" →
      runSimulateResult (SpawnOutcome.exited c s) =
        Except.error ("simulate-location exited with code " ++ jsCodeStr c)) ∧
    (∀ m, runSimulateResult (SpawnOutcome.startError m) =
      Except.error ("Failed to start pymobiledevice3: " ++ m)) := by
  refine ⟨fun s => rfl, fun c s hc hs => ?_, fun c s hc hs => ?_, fun m => rfl⟩
  · simp [runSimulateResult, hc, hs]
  · simp [runSimulateResult, hc, hs]

/-- Witness for C8: a non-zero exit with whitespace-padded stderr rejects
with the trimmed text. -/
theorem captured_runner_result_mapping_witness :
    runSimulateResult (SpawnOutcome.exited (some 1) (" boom ")) =
      Except.error (jsTrim (" boom ")) :=
  captured_runner_result_mapping.2.1 (some 1) (" boom ") (by decide) (by decide)

/-- Every attempt start time is at least its index when the retry interval is
positive: each loop iteration advances the clock by at least `intervalMs`. -/
lemma checkTime_index_le (intervalMs : Nat) (d : Nat → Nat) (h : 0 < intervalMs) :
    ∀ k, k ≤ checkTime intervalMs d k := by
  intro k
  induction k with
  | zero => exact Nat.le_refl 0
  | succ n ih => simp only [checkTime]; omega

/-- C1: whenever no attempt succeeds, `waitForPort` rejects: with a positive
retry interval a rejection step exists, and at any rejection step the elapsed
time is strictly greater than `timeoutMs` and at most
`timeoutMs + intervalMs + 2000` (the fixed per-attempt socket timeout, which
bounds every failed attempt's duration).  Moreover the `timeout` and `error`
socket events are dispatched identically to `tryAgain`, and a failed attempt
schedules the next attempt exactly `intervalMs` after it finishes, never
immediately. -/
theorem waitForPort_timeout_bound (host : String) (port timeoutMs intervalMs : Nat)
    (d : Nat → Nat) (hdur : ∀ j, d j ≤ perAttemptTimeoutMs) (hpos : 0 < intervalMs) :
    (∃ k, rejectsAtStep timeoutMs intervalMs d k) ∧
    (∀ k, rejectsAtStep timeoutMs intervalMs d k →
      timeoutMs < checkTime intervalMs d k + d k ∧
      checkTime intervalMs d k + d k ≤ timeoutMs + intervalMs + perAttemptTimeoutMs) ∧
    socketDispatch AttemptOutcome.timedOut = SocketStep.tryAgain ∧
    socketDispatch AttemptOutcome.errored = SocketStep.tryAgain ∧
    socketDispatch AttemptOutcome.timedOut = socketDispatch AttemptOutcome.errored ∧
    (∀ k, checkTime intervalMs d (k + 1) = checkTime intervalMs d k + d k + intervalMs) ∧
    waitTimeoutMsg host port timeoutMs =
      "Timeout: " ++ host ++ ":" ++ toString port ++ " not ready within " ++
        toString timeoutMs ++ "ms" := by
  have hP : ∃ k, timeoutMs < checkTime intervalMs d k + d k := by
    refine ⟨timeoutMs + 1, ?_⟩
    have h1 := checkTime_index_le intervalMs d hpos (timeoutMs + 1)
    omega
  refine ⟨?_, ?_, rfl, rfl, rfl, fun k => rfl, rfl⟩
  · classical
    refine ⟨Nat.find hP, ?_, Nat.find_spec hP⟩
    intro j hj
    have := Nat.find_min hP hj
    omega
  · intro k hk
    refine ⟨hk.2, ?_⟩
    cases k with
    | zero =>
      have := hdur 0
      simp only [checkTime] at *
      omega
    | succ n =>
      have hle : checkTime intervalMs d n + d n ≤ timeoutMs := hk.1 n (Nat.lt_succ_self n)
      have := hdur (n + 1)
      simp only [checkTime] at *
      omega

/-- Witness for C1: with every attempt failing instantly, a 1000 ms budget
and a 250 ms interval, a rejection step exists and every rejection lands in
the stated window. -/
theorem waitForPort_timeout_bound_witness :
    (∃ k, rejectsAtStep 1000 250 (fun _ => 0) k) ∧
    (∀ k, rejectsAtStep 1000 250 (fun _ => 0) k →
      1000 < checkTime 250 (fun _ => 0) k + (fun _ => 0 : Nat → Nat) k ∧
      checkTime 250 (fun _ => 0) k + (fun _ => 0 : Nat → Nat) k ≤ 1000 + 250 + perAttemptTimeoutMs) ∧
    socketDispatch AttemptOutcome.timedOut = SocketStep.tryAgain ∧
    socketDispatch AttemptOutcome.errored = SocketStep.tryAgain ∧
    socketDispatch AttemptOutcome.timedOut = socketDispatch AttemptOutcome.errored ∧
    (∀ k, checkTime 250 (fun _ => 0) (k + 1) =
      checkTime 250 (fun _ => 0) k + (fun _ => 0 : Nat → Nat) k + 250) ∧
    waitTimeoutMsg ("127.0.0.1") 49151 1000 =
      "Timeout: " ++ "127.0.0.1" ++ ":" ++ toString 49151 ++ " not ready within " ++
        toString 1000 ++ "ms" :=
  waitForPort_timeout_bound ("127.0.0.1") 49151 1000 250 (fun _ => 0)
    (fun _ => Nat.zero_le _) (by decide)

/-- Helper: a token that starts with a dash and matches no recognized flag
is skipped by the parser loop: the options record is unchanged and parsing
continues with the remaining tokens. -/
lemma parseArgsLoop_unknown_flag (a : String) (rest : List String) (o : Opts)
    (hd : startsWithDash a = true) (hr : a ∉ recognizedFlags) :
    parseArgsLoop (a :: rest) o = parseArgsLoop rest o := by
  simp only [recognizedFlags, List.mem_cons, List.not_mem_nil, or_false, not_or] at hr
  obtain ⟨h1, h2, h3, h4, h5, h6, h7, h8, h9⟩ := hr
  rw [parseArgsLoop.eq_def]
  simp [h1, h2, h3, h4, h5, h6, h7, h8, h9, hd]

/-- Helper: when the argument vector contains neither `--lat` nor `--lon`,
every coordinate value the parser loop produces comes from the positional
branch, whose guard excludes dash-initial tokens (given that the incoming
record also satisfies this). -/
lemma parseArgsLoop_coords_no_dash :
    ∀ (args : List String) (o : Opts),
      ("--lat") ∉ args → ("--lon") ∉ args →
      (∀ v, o.lat = some v → startsWithDash v = false) →
      (∀ v, o.lon = some v → startsWithDash v = false) →
      (∀ v, (parseArgsLoop args o).lat = some v → startsWithDash v = false) ∧
      (∀ v, (parseArgsLoop args o).lon = some v → startsWithDash v = false) := by
  intro args o
  induction args, o using parseArgsLoop.induct
  case case1 o =>
    intro _ _ hplat hplon
    rw [parseArgsLoop.eq_def]
    exact ⟨hplat, hplon⟩
  case case2 o =>
    intro _ _ hplat hplon
    rw [parseArgsLoop.eq_def]
    simpa using ⟨hplat, hplon⟩
  case case3 o v rest2 ih =>
    intro hlat hlon hplat hplon
    rw [parseArgsLoop.eq_def]
    simp only [String.reduceEq, if_pos rfl, ite_true]
    exact ih (fun hm => hlat (List.mem_cons_of_mem _ (List.mem_cons_of_mem _ hm)))
      (fun hm => hlon (List.mem_cons_of_mem _ (List.mem_cons_of_mem _ hm))) hplat hplon
  case case4 o h1 =>
    intro _ _ hplat hplon
    rw [parseArgsLoop.eq_def]
    simpa using ⟨hplat, hplon⟩
  case case5 o v rest2 h1 ih =>
    intro hlat hlon hplat hplon
    rw [parseArgsLoop.eq_def]
    simp only [h1, String.reduceEq, if_false, if_pos rfl, ite_true, ite_false]
    exact ih (fun hm => hlat (List.mem_cons_of_mem _ (List.mem_cons_of_mem _ hm)))
      (fun hm => hlon (List.mem_cons_of_mem _ (List.mem_cons_of_mem _ hm))) hplat hplon
  case case6 o h1 h2 =>
    intro hlat _ _ _
    simp at hlat
  case case7 o v rest2 h1 h2 ih =>
    intro hlat _ _ _
    simp at hlat
  case case8 o h1 h2 h3 =>
    intro _ hlon _ _
    simp at hlon
  case case9 o v rest2 h1 h2 h3 ih =>
    intro _ hlon _ _
    simp at hlon
  case case10 rest o h1 h2 h3 h4 ih =>
    intro hlat hlon hplat hplon
    rw [parseArgsLoop.eq_def]
    simp only [String.reduceEq, if_false, ite_true, ite_false]
    exact ih (fun hm => hlat (List.mem_cons_of_mem _ hm))
      (fun hm => hlon (List.mem_cons_of_mem _ hm)) hplat hplon
  case case11 rest o h1 h2 h3 h4 h5 ih =>
    intro hlat hlon hplat hplon
    rw [parseArgsLoop.eq_def]
    simp only [String.reduceEq, if_false, ite_true, ite_false]
    exact ih (fun hm => hlat (List.mem_cons_of_mem _ hm))
      (fun hm => hlon (List.mem_cons_of_mem _ hm)) hplat hplon
  case case12 o h1 h2 h3 h4 h5 h6 =>
    intro _ _ hplat hplon
    rw [parseArgsLoop.eq_def]
    simpa using ⟨hplat, hplon⟩
  case case13 o v rest2 h1 h2 h3 h4 h5 h6 ih =>
    intro hlat hlon hplat hplon
    rw [parseArgsLoop.eq_def]
    simp only [String.reduceEq, if_false, ite_true, ite_false, if_pos rfl]
    exact ih (fun hm => hlat (List.mem_cons_of_mem _ (List.mem_cons_of_mem _ hm)))
      (fun hm => hlon (List.mem_cons_of_mem _ (List.mem_cons_of_mem _ hm))) hplat hplon
  case case14 a rest o h1 h2 h3 h4 h5 h6 h7 hor ih =>
    intro hlat hlon hplat hplon
    rw [parseArgsLoop.eq_def]
    simp only [h1, h2, h3, h4, h5, h6, h7, hor, if_false, ite_true, ite_false, if_true]
    exact ih (fun hm => hlat (List.mem_cons_of_mem _ hm))
      (fun hm => hlon (List.mem_cons_of_mem _ hm)) hplat hplon
  case case15 a rest o h1 h2 h3 h4 h5 h6 h7 h8 h9 hlatn ih =>
    intro hlat hlon hplat hplon
    rw [parseArgsLoop.eq_def]
    simp only [h1, h2, h3, h4, h5, h6, h7, h8, h9, hlatn, if_false, ite_true, ite_false,
      not_false_iff, if_true]
    refine ih (fun hm => hlat (List.mem_cons_of_mem _ hm))
      (fun hm => hlon (List.mem_cons_of_mem _ hm)) ?_ hplon
    intro v hv
    have hv2 : some a = some v := hv
    cases hv2
    simpa using h9
  case case16 a rest o h1 h2 h3 h4 h5 h6 h7 h8 h9 hlatn hlonn ih =>
    intro hlat hlon hplat hplon
    rw [parseArgsLoop.eq_def]
    simp only [h1, h2, h3, h4, h5, h6, h7, h8, h9, hlatn, hlonn, if_false, ite_true, ite_false,
      not_false_iff, if_true]
    refine ih (fun hm => hlat (List.mem_cons_of_mem _ hm))
      (fun hm => hlon (List.mem_cons_of_mem _ hm)) hplat ?_
    intro v hv
    have hv2 : some a = some v := hv
    cases hv2
    simpa using h9
  case case17 a rest o h1 h2 h3 h4 h5 h6 h7 h8 h9 hlatn hlonn ih =>
    intro hlat hlon hplat hplon
    rw [parseArgsLoop.eq_def]
    simp only [h1, h2, h3, h4, h5, h6, h7, h8, h9, hlatn, hlonn, if_false, ite_true, ite_false,
      not_false_iff, if_true]
    exact ih (fun hm => hlat (List.mem_cons_of_mem _ hm))
      (fun hm => hlon (List.mem_cons_of_mem _ hm)) hplat hplon
  case case18 a rest o h1 h2 h3 h4 h5 h6 h7 h8 hnn ih =>
    intro hlat hlon hplat hplon
    rw [parseArgsLoop.eq_def]
    simp only [h1, h2, h3, h4, h5, h6, h7, h8, hnn, if_false, ite_true, ite_false, if_true]
    exact ih (fun hm => hlat (List.mem_cons_of_mem _ hm))
      (fun hm => hlon (List.mem_cons_of_mem _ hm)) hplat hplon

/-- C10: the parser never consumes a dash-initial token as a positional
coordinate: an unrecognized dash token leaves the options record unchanged,
so a negative coordinate given positionally (e.g. `-27.3`) is silently
dropped; consequently, in a run without `--lat`/`--lon` flags no
dash-initial string can end up in `lat` or `lon`.  Concretely, `-27.3` alone
parses to the defaults, and `-27.3 153.0` puts `153.0` into `lat` and leaves
`lon` unset. -/
theorem positional_dash_token_dropped
    (a : String) (rest : List String) (o : Opts) (argv : List String)
    (hd : startsWithDash a = true) (hr : a ∉ recognizedFlags)
    (hlat : ("--lat") ∉ argv) (hlon : ("--lon") ∉ argv) :
    parseArgsLoop (a :: rest) o = parseArgsLoop rest o ∧
    (∀ v, (parseArgs argv).lat = some v → startsWithDash v = false) ∧
    (∀ v, (parseArgs argv).lon = some v → startsWithDash v = false) ∧
    parseArgs [("-27.3")] = defaultOpts ∧
    (parseArgs [("-27.3"), "153.0"]).lat = some ("153.0") ∧
    (parseArgs [("-27.3"), "153.0"]).lon = none := by
  have hcore := parseArgsLoop_coords_no_dash argv defaultOpts hlat hlon
    (fun v hv => by simp [defaultOpts] at hv) (fun v hv => by simp [defaultOpts] at hv)
  exact ⟨parseArgsLoop_unknown_flag a rest o hd hr, hcore.1, hcore.2,
    by decide, by decide, by decide⟩

/-- Witness for C10: the concrete instance at `-27.3`. -/
theorem positional_dash_token_dropped_witness :
    parseArgsLoop (("-27.3") :: []) defaultOpts = parseArgsLoop [] defaultOpts ∧
    (∀ v, (parseArgs [("-27.3"), "153.0"]).lat = some v → startsWithDash v = false) ∧
    (∀ v, (parseArgs [("-27.3"), "153.0"]).lon = some v → startsWithDash v = false) ∧
    parseArgs [("-27.3")] = defaultOpts ∧
    (parseArgs [("-27.3"), "153.0"]).lat = some ("153.0") ∧
    (parseArgs [("-27.3"), "153.0"]).lon = none :=
  positional_dash_token_dropped ("-27.3") [] defaultOpts [("-27.3"), "153.0"]
    (by decide) (by decide) (by decide) (by decide)

/-- C9, counterexample: `--bogus` is an invalid flag (dash-initial, not
recognized), yet the run `--no-tunnel --lat 1 --lon 2 --bogus` does NOT
report a usage error — it proceeds to execution. -/
theorem invalid_flag_no_usage_counterexample :
    startsWithDash ("--bogus") = true ∧
    ("--bogus") ∉ recognizedFlags ∧
    ("--bogus") ∈ c9Argv ∧
    mainValidate c9Argv fsEmpty "/w" "/h" ≠ ValidateResult.usageExit1 ∧
    mainValidate c9Argv fsEmpty "/w" "/h" =
      ValidateResult.proceed
        { defaultOpts with noTunnel := true, lat := some ("1"), lon := some ("2") } := by
  exact ⟨by decide, by decide, by decide, by decide, by decide⟩

/-- C9, amended: an invalid flag is silently ignored (the parser state is
unchanged by it), and usage text with exit code 1 is reported exactly when
`--help` is given, no arguments are given, or reset was not requested and a
coordinate is still unset after config completion — never on account of an
invalid flag alone. -/
theorem invalid_flag_ignored_usage_characterization
    (a : String) (rest : List String) (o : Opts) (argv : List String)
    (fs : FS) (cwd home : String)
    (hd : startsWithDash a = true) (hr : a ∉ recognizedFlags) :
    parseArgsLoop (a :: rest) o = parseArgsLoop rest o ∧
    usageExitCode = 1 ∧
    (mainValidate argv fs cwd home = ValidateResult.usageExit1 ↔
      ((parseArgs argv).help = true ∨ argv = [] ∨
        ((parseArgs argv).reset = false ∧
          ((applyConfigDefaults fs cwd home (parseArgs argv)).1.lat = none ∨
            (applyConfigDefaults fs cwd home (parseArgs argv)).1.lon = none)))) := by
  refine ⟨parseArgsLoop_unknown_flag a rest o hd hr, rfl, ?_⟩
  constructor
  · intro h
    simp only [mainValidate] at h
    split at h
    · rename_i hh
      exact Or.inl hh
    split at h
    · rename_i hnil
      exact Or.inr (Or.inl hnil)
    split at h
    · rename_i hcond
      simp only [validateAfterConfig] at h
      split at h
      · rename_i hmiss
        exact Or.inr (Or.inr ⟨hcond.1, hmiss⟩)
      · exact absurd h (by simp)
    · exact absurd h (by simp)
  · intro h
    rcases h with hh | hnil | ⟨hres, hmiss⟩
    · simp only [mainValidate]
      rw [if_pos hh]
    · by_cases hh : (parseArgs argv).help = true
      · simp only [mainValidate]
        rw [if_pos hh]
      · simp only [mainValidate]
        rw [if_neg hh, if_pos hnil]
    · by_cases hh : (parseArgs argv).help = true
      · simp only [mainValidate]
        rw [if_pos hh]
      · by_cases hnil : argv = []
        · simp only [mainValidate]
          rw [if_neg hh, if_pos hnil]
        · have hpre : (parseArgs argv).lat = none ∨ (parseArgs argv).lon = none := by
            rcases hmiss with hm | hm
            · exact Or.inl ((applyConfigDefaults_none_mono fs cwd home (parseArgs argv)).1 hm)
            · exact Or.inr ((applyConfigDefaults_none_mono fs cwd home (parseArgs argv)).2 hm)
          simp only [mainValidate]
          rw [if_neg hh, if_neg hnil, if_pos ⟨hres, hpre⟩]
          simp only [validateAfterConfig]
          rw [if_pos hmiss]

/-- Witness for C9 (amended): the `--bogus` instance, with the usage
characterization for the concrete counterexample argument vector. -/
theorem invalid_flag_ignored_usage_characterization_witness :
    parseArgsLoop (("--bogus") :: []) defaultOpts = parseArgsLoop [] defaultOpts ∧
    usageExitCode = 1 ∧
    (mainValidate c9Argv fsEmpty "/w" "/h" = ValidateResult.usageExit1 ↔
      ((parseArgs c9Argv).help = true ∨ c9Argv = [] ∨
        ((parseArgs c9Argv).reset = false ∧
          ((applyConfigDefaults fsEmpty "/w" "/h" (parseArgs c9Argv)).1.lat = none ∨
            (applyConfigDefaults fsEmpty "/w" "/h" (parseArgs c9Argv)).1.lon = none)))) :=
  invalid_flag_ignored_usage_characterization ("--bogus") [] defaultOpts c9Argv fsEmpty
    "/w" "/h" (by decide) (by decide)

end IosSimloc
